import Mathlib

/-!
# SonosCast — verification of the Cast v2 virtual-receiver core

A shallow embedding of the SonosCast bridge's protocol core, translated from
`sonoscast/app/lib/bridge.js` (the protocol listener and `PacketReader` frame
codec), `sonoscast/app/lib/cast-device.js` (the per-receiver session engine),
and the `DeviceRegistry` identity store, together with theorems about the
framing round-trip, the device-authentication path, the receiver/media state
machine, and the identity store.

Bytes are modelled as `Nat` (each produced byte is `< 256` by construction);
byte strings are `List Nat`.  JavaScript strings that the engine only moves
around (content ids, player states, message types) are modelled as `String`.
Absent/`undefined` JSON fields are modelled with `Option`.
-/

namespace SonosCast

/-! ## Frame codec (`bridge.js`: `PacketReader`, `CastProtocolServer.send`)

The wire format is a 4-byte big-endian unsigned length prefix followed by
exactly that many bytes of an encoded `CastMessage` protobuf. -/

/-- Big-endian read `buffer.readUInt32BE(0)`: big-endian 32-bit read of the first four bytes.
Only invoked by the reader when the buffer holds at least four bytes. -/
def readUInt32BE : List Nat → Nat
  | b0 :: b1 :: b2 :: b3 :: _ => ((b0 * 256 + b1) * 256 + b2) * 256 + b3
  | _ => 0

/-- Header write `header.writeUInt32BE(n, 0)`: the four big-endian bytes of `n`
(`n < 2 ^ 32`; Node throws a `RangeError` otherwise). -/
def writeUInt32BE (n : Nat) : List Nat :=
  [n / 2 ^ 24 % 256, n / 2 ^ 16 % 256, n / 2 ^ 8 % 256, n % 256]

/-- The mutable state of a `PacketReader`: the unconsumed tail of the byte
stream (`this._buffer`) and the pending body length (`this._expectedLength`,
`null` while waiting for a prefix). -/
structure ReaderState where
  buffer : List Nat
  expectedLength : Option Nat
deriving DecidableEq, Repr

/-- The `while (true)` loop body of `PacketReader._onData`: repeatedly consume
a 4-byte big-endian prefix and then that many body bytes, emitting each
complete body, until the buffer runs dry.  Returns the emitted bodies in order
together with the residual reader state. -/
def pkLoop (buffer : List Nat) (expected : Option Nat) :
    List (List Nat) × ReaderState :=
  match expected with
  | none =>
    if buffer.length < 4 then ([], ⟨buffer, none⟩)
    else pkLoop (buffer.drop 4) (some (readUInt32BE buffer))
  | some n =>
    if buffer.length < n then ([], ⟨buffer, some n⟩)
    else
      let r := pkLoop (buffer.drop n) none
      (buffer.take n :: r.1, r.2)
termination_by (buffer.length, match expected with | none => 0 | some _ => 1)
decreasing_by
  · simp only [List.length_drop]
    omega
  · simp only [List.length_drop]
    omega

/-- Source `PacketReader._onData(chunk)`: append the chunk to the buffer, then drain
complete frames. -/
def PacketReader.onData (st : ReaderState) (chunk : List Nat) :
    List (List Nat) × ReaderState :=
  pkLoop (st.buffer ++ chunk) st.expectedLength

/-- Feed a sequence of socket `data` chunks through one `PacketReader`,
collecting every emitted body in order. -/
def PacketReader.feed (st : ReaderState) : List (List Nat) → List (List Nat) × ReaderState
  | [] => ([], st)
  | c :: cs =>
    let r1 := PacketReader.onData st c
    let r2 := PacketReader.feed r1.2 cs
    (r1.1 ++ r2.1, r2.2)

/-- The initial reader state: `Buffer.alloc(0)` and `null` expected length. -/
def PacketReader.initial : ReaderState := ⟨[], none⟩

/-! ## CastMessage protobuf codec

`cast-protocol.js` declares the `CastMessage` schema (fields 1–7) and encodes
and decodes it with protobufjs; the wire form follows the protobuf
specification for that schema: each present field is a varint key
`fieldNo * 8 + wireType` followed by a varint (wire type 0) or a
length-delimited byte string (wire type 2). -/

/-- Protobuf base-128 varint encoding, least-significant group first, with a
continuation bit on every byte but the last. -/
def encodeVarint (n : Nat) : List Nat :=
  if n < 128 then [n] else (n % 128 + 128) :: encodeVarint (n / 128)
termination_by n
decreasing_by omega

/-- Protobuf varint decoding: the inverse reader. -/
def parseVarint : List Nat → Option (Nat × List Nat)
  | [] => none
  | b :: rest =>
    if b < 128 then some (b, rest)
    else
      match parseVarint rest with
      | none => none
      | some (v, r) => some (b % 128 + v * 128, r)

/-- A length-delimited protobuf field value: varint length, then that many
bytes. -/
def parseLenDelim (l : List Nat) : Option (List Nat × List Nat) :=
  match parseVarint l with
  | none => none
  | some (n, rest) =>
    if rest.length < n then none else some (rest.take n, rest.drop n)

/-- The `CastMessage` record of `cast-protocol.js` as protobufjs materialises
it: enum and string fields default to `0` / empty, the two payload fields are
optional (`undefined` when not set). -/
structure CastMessage where
  protocolVersion : Nat
  sourceId : List Nat
  destinationId : List Nat
  ns : List Nat
  payloadType : Nat
  payloadUtf8 : Option (List Nat)
  payloadBinary : Option (List Nat)
deriving DecidableEq, Repr

/-- The decoder's starting record: all fields at their protobuf defaults. -/
def emptyCastMessage : CastMessage := ⟨0, [], [], [], 0, none, none⟩

/-- Varint-valued field block (wire type 0). -/
def encVarintField (fieldNo value : Nat) : List Nat :=
  (fieldNo * 8 + 0) :: encodeVarint value

/-- Length-delimited field block (wire type 2). -/
def encBytesField (fieldNo : Nat) (bytes : List Nat) : List Nat :=
  (fieldNo * 8 + 2) :: (encodeVarint bytes.length ++ bytes)

/-- protobufjs encoding of a `CastMessage` under the declared schema: fields
in declaration order 1–7, a field written exactly when it is set (the send
path sets `protocolVersion`, both ids, the namespace, `payloadType`, and
exactly one payload field). -/
def encodeCastMessage (m : CastMessage) : List Nat :=
  encVarintField 1 m.protocolVersion ++
  encBytesField 2 m.sourceId ++
  encBytesField 3 m.destinationId ++
  encBytesField 4 m.ns ++
  encVarintField 5 m.payloadType ++
  (match m.payloadUtf8 with | some s => encBytesField 6 s | none => []) ++
  (match m.payloadBinary with | some b => encBytesField 7 b | none => [])

/-- protobufjs decoding loop for the `CastMessage` schema: read a key varint,
dispatch on field number and wire type, store known fields, skip unknown ones,
fail on truncated input.  `fuel` bounds the iteration count; every iteration
consumes at least one byte, so `l.length` fuel always suffices. -/
def decodeLoop : Nat → List Nat → CastMessage → Option CastMessage
  | _, [], m => some m
  | 0, _ :: _, _ => none
  | fuel + 1, b :: tail, m =>
    match parseVarint (b :: tail) with
    | none => none
    | some (key, rest) =>
      let fieldNo := key / 8
      let wire := key % 8
      if wire = 0 then
        match parseVarint rest with
        | none => none
        | some (v, rest2) =>
          let m2 :=
            if fieldNo = 1 then { m with protocolVersion := v }
            else if fieldNo = 5 then { m with payloadType := v }
            else m
          decodeLoop fuel rest2 m2
      else if wire = 2 then
        match parseLenDelim rest with
        | none => none
        | some (bs, rest2) =>
          let m2 :=
            if fieldNo = 2 then { m with sourceId := bs }
            else if fieldNo = 3 then { m with destinationId := bs }
            else if fieldNo = 4 then { m with ns := bs }
            else if fieldNo = 6 then { m with payloadUtf8 := some bs }
            else if fieldNo = 7 then { m with payloadBinary := some bs }
            else m
          decodeLoop fuel rest2 m2
      else if wire = 5 then
        if rest.length < 4 then none else decodeLoop fuel (rest.drop 4) m
      else if wire = 1 then
        if rest.length < 8 then none else decodeLoop fuel (rest.drop 8) m
      else none

/-- Source `castMessageType.decode(messageData)`. -/
def decodeCastMessage (l : List Nat) : Option CastMessage :=
  decodeLoop l.length l emptyCastMessage

/-- The payload argument of `CastProtocolServer.send`: a JS string (serialised
UTF-8 JSON) or a raw `Buffer`; `Buffer.isBuffer(data)` selects the payload
type. -/
inductive PayloadData
  | text (data : List Nat)
  | binary (data : List Nat)
deriving DecidableEq, Repr

/-- The message object `CastProtocolServer.send` constructs:
`protocolVersion: 0`, the two ids, the namespace, and exactly one payload
field selected by `Buffer.isBuffer(data)`. -/
def CastProtocolServer.buildMessage (sourceId destinationId ns : List Nat)
    (data : PayloadData) : CastMessage :=
  match data with
  | .text s => ⟨0, sourceId, destinationId, ns, 0, some s, none⟩
  | .binary b => ⟨0, sourceId, destinationId, ns, 1, none, some b⟩

/-- The bytes `CastProtocolServer.send` writes to the socket: a 4-byte
big-endian length prefix followed by the encoded envelope. -/
def CastProtocolServer.sendBytes (m : CastMessage) : List Nat :=
  writeUInt32BE (encodeCastMessage m).length ++ encodeCastMessage m

/-- The decoded messages a `PacketReader` delivers to its `onMessage` callback
for a sequence of input chunks: each complete body is protobuf-decoded, and a
body that fails to decode is logged and skipped. -/
def readerMessages (chunks : List (List Nat)) : List CastMessage :=
  ((PacketReader.feed PacketReader.initial chunks).1).filterMap decodeCastMessage

/-! ## Session engine (`cast-device.js`)

One `CastDevice` per emulated receiver.  The handlers below are the
namespace handlers `_handleReceiver`, `_handleMedia`, `_handleMediaLoad`,
`_sendReceiverStatus`, `_sendMediaStatus` as pure state transformers.  A
handler's run produces the successor state, the emitted playback-intent
events, the replies handed to `this._server.send`, and any `setTimeout`
registrations. -/

/-- The five live Cast v2 namespace strings from `cast-protocol.js`. -/
def NS_CONNECTION : String := "urn:x-cast:com.google.cast.tp.connection"

def NS_HEARTBEAT : String := "urn:x-cast:com.google.cast.tp.heartbeat"

def NS_RECEIVER : String := "urn:x-cast:com.google.cast.receiver"

def NS_MEDIA : String := "urn:x-cast:com.google.cast.media"

def NS_DEVICEAUTH : String := "urn:x-cast:com.google.cast.tp.deviceauth"

/-- A loosely-typed JSON field value, as far as the engine inspects it: the
`autoplay` field is only compared against the literal `false`
(`payload.autoplay !== false`). -/
inductive JsValue
  | undef
  | null
  | boolTrue
  | boolFalse
  | other
deriving DecidableEq, Repr

/-- Autoplay default `payload.autoplay !== false`: only an explicit boolean `false` turns
autoplay off. -/
def loadAutoplayFlag (v : JsValue) : Bool := v != JsValue.boolFalse

/-- JavaScript `x || dflt` for an optional string field: `undefined`, `null`
and the empty string are all falsy. -/
def jsStrOr (v : Option String) (dflt : String) : String :=
  match v with
  | some s => if s = "" then dflt else s
  | none => dflt

/-- The `media` sub-record of a `LOAD` payload (fields the handler reads). -/
structure MediaRequestInfo where
  contentId : Option String
  contentType : Option String
  streamType : Option String
  metadata : Option String
deriving DecidableEq, Repr

/-- The `volume` sub-record of a `SET_VOLUME` payload. -/
structure VolumePayload where
  level : Option Nat
  muted : Option Bool
deriving DecidableEq, Repr

/-- A parsed media-namespace JSON payload (the fields `_handleMedia` and
`_handleMediaLoad` read). -/
structure MediaPayload where
  type : String
  requestId : Option Nat
  media : Option MediaRequestInfo
  autoplay : JsValue
  currentTime : Option Nat
  volume : Option VolumePayload
deriving DecidableEq, Repr

/-- A parsed receiver-namespace JSON payload. -/
structure ReceiverPayload where
  type : String
  requestId : Option Nat
  appId : Option String
  volume : Option VolumePayload
deriving DecidableEq, Repr

/-- The `media` sub-record of the device's Media Status record. -/
structure MediaInfo where
  contentId : String
  contentType : String
  streamType : String
  metadata : String
deriving DecidableEq, Repr

/-- The fixed `{ level: 1.0, muted: false }` volume report (level scaled so
that `1` stands for `1.0`). -/
structure MediaVolume where
  level : Nat
  muted : Bool
deriving DecidableEq, Repr

/-- The device's single Media Status record (`this._mediaStatus`). -/
structure MediaStatus where
  mediaSessionId : Nat
  playerState : String
  media : MediaInfo
  currentTime : Nat
  supportedMediaCommands : Nat
  volume : MediaVolume
deriving DecidableEq, Repr

/-- One application entry of a `RECEIVER_STATUS` reply. -/
structure AppEntry where
  appId : String
  isIdleScreen : Bool
  sessionId : Nat
  transportId : String
deriving DecidableEq, Repr

/-- The JSON payload of a reply the engine sends. -/
inductive ReplyPayload
  | pong
  | receiverStatus (requestId : Nat) (applications : List AppEntry)
  | mediaStatus (requestId : Nat) (status : List MediaStatus)
deriving DecidableEq, Repr

/-- One call to `this._server.send`: source id, destination id, namespace and
payload. -/
structure Reply where
  sourceId : String
  destinationId : String
  ns : String
  payload : ReplyPayload
deriving DecidableEq, Repr

/-- A playback-intent event emitted to the bridging collaborator
(`this.emit(...)`).  Every event carries `speakerIp: this.speakerIp`. -/
inductive CastEvent
  | load (speakerIp contentId contentType streamType metadata : String)
      (autoplay : Bool) (currentTime : Nat)
  | play (speakerIp : String)
  | pause (speakerIp : String)
  | stop (speakerIp : String)
  | seek (speakerIp : String) (currentTime : Option Nat)
  | volume (speakerIp : String) (level : Option Nat) (muted : Option Bool)
deriving DecidableEq, Repr

/-- A `setTimeout` registration made by a handler (`_handleMediaLoad`
schedules a delayed `_sendMediaStatus(clientId, sourceId, 0, 'PLAYING')`
500 ms out). -/
structure DelayedStatusPush where
  delayMs : Nat
  requestId : Nat
  playerState : String
deriving DecidableEq, Repr

/-- The immutable per-device configuration the handlers read from `this`. -/
structure CastDeviceConfig where
  speakerIp : String
  transportId : String
deriving DecidableEq, Repr

/-- The mutable per-device fields the handlers touch: `this._appRunning`,
`this._sessionId` (uuid, modelled as an opaque token), `this._mediaRequestId`
and `this._mediaStatus`.  The session id regenerated by `LAUNCH` enters as an
explicit input. -/
structure CastDeviceState where
  appRunning : Bool
  sessionId : Nat
  mediaRequestId : Nat
  mediaStatus : Option MediaStatus
deriving DecidableEq, Repr

/-- The full outcome of one handler run. -/
structure HandlerResult where
  state : CastDeviceState
  events : List CastEvent
  replies : List Reply
  timers : List DelayedStatusPush
deriving DecidableEq, Repr

/-- Source `_sendMediaStatus(clientId, sourceId, requestId, playerState)`: when a
Media Status record exists and a player state was given, mutate the record's
`playerState`, then send a `MEDIA_STATUS` reply from the transport id carrying
the (possibly empty) status list. -/
def sendMediaStatus (cfg : CastDeviceConfig) (st : CastDeviceState)
    (destinationId : String) (requestId : Option Nat) (playerState : Option String) :
    CastDeviceState × Reply :=
  let st2 :=
    match st.mediaStatus, playerState with
    | some ms, some p => { st with mediaStatus := some { ms with playerState := p } }
    | _, _ => st
  let statusList := match st2.mediaStatus with | some ms => [ms] | none => []
  (st2, ⟨cfg.transportId, destinationId, NS_MEDIA,
         .mediaStatus (requestId.getD 0) statusList⟩)

/-- Source `_sendReceiverStatus(clientId, sourceId, requestId)`: a `RECEIVER_STATUS`
reply from `receiver-0`; the applications list holds the one synthetic
Default Media Receiver entry exactly when the app is running. -/
def sendReceiverStatus (cfg : CastDeviceConfig) (st : CastDeviceState)
    (destinationId : String) (requestId : Option Nat) : Reply :=
  ⟨"receiver-0", destinationId, NS_RECEIVER,
   .receiverStatus (requestId.getD 0)
     (if st.appRunning then
        [⟨"CC1AD845", false, st.sessionId, cfg.transportId⟩]
      else [])⟩

/-- Source `_handleMediaLoad`: drop the message when `media.contentId` is missing
(or empty, which is falsy in `!media.contentId`); otherwise create a fresh
Media Status record in `BUFFERING` with `mediaSessionId = ++this._mediaRequestId`,
emit the `load` intent, reply with `BUFFERING` status, and schedule the 500 ms
delayed `PLAYING` push. -/
def handleMediaLoad (cfg : CastDeviceConfig) (st : CastDeviceState)
    (sourceId : String) (p : MediaPayload) : HandlerResult :=
  match p.media with
  | none => ⟨st, [], [], []⟩
  | some media =>
    match media.contentId with
    | none => ⟨st, [], [], []⟩
    | some cid =>
      if cid = "" then ⟨st, [], [], []⟩
      else
        let newId := st.mediaRequestId + 1
        let ms : MediaStatus :=
          { mediaSessionId := newId
            playerState := "BUFFERING"
            media :=
              { contentId := cid
                contentType := (media.contentType.getD "")
                streamType := jsStrOr media.streamType "BUFFERED"
                metadata := (media.metadata.getD "") }
            currentTime := p.currentTime.getD 0
            supportedMediaCommands := 274447
            volume := ⟨1, false⟩ }
        let st1 := { st with mediaRequestId := newId, mediaStatus := some ms }
        let r := sendMediaStatus cfg st1 sourceId p.requestId (some "BUFFERING")
        ⟨r.1,
         [.load cfg.speakerIp cid (media.contentType.getD "")
            (jsStrOr media.streamType "BUFFERED") (media.metadata.getD "")
            (loadAutoplayFlag p.autoplay) (p.currentTime.getD 0)],
         [r.2],
         [⟨500, 0, "PLAYING"⟩]⟩

/-- Source `_handleMedia`: dispatch on `payload.type`.  `PLAY`/`PAUSE`/`STOP`/`SEEK`
emit the corresponding intent and reply with the listed player state;
`GET_STATUS` replies with the current (or `IDLE`) state; `SET_VOLUME` emits a
volume intent when a volume record is present and replies without a player
state; an unhandled type is logged and dropped. -/
def handleMedia (cfg : CastDeviceConfig) (st : CastDeviceState)
    (sourceId : String) (p : MediaPayload) : HandlerResult :=
  if p.type = "LOAD" then handleMediaLoad cfg st sourceId p
  else if p.type = "PLAY" then
    let r := sendMediaStatus cfg st sourceId p.requestId (some "PLAYING")
    ⟨r.1, [.play cfg.speakerIp], [r.2], []⟩
  else if p.type = "PAUSE" then
    let r := sendMediaStatus cfg st sourceId p.requestId (some "PAUSED")
    ⟨r.1, [.pause cfg.speakerIp], [r.2], []⟩
  else if p.type = "STOP" then
    let r := sendMediaStatus cfg st sourceId p.requestId (some "IDLE")
    ⟨r.1, [.stop cfg.speakerIp], [r.2], []⟩
  else if p.type = "SEEK" then
    let r := sendMediaStatus cfg st sourceId p.requestId (some "PLAYING")
    ⟨r.1, [.seek cfg.speakerIp p.currentTime], [r.2], []⟩
  else if p.type = "GET_STATUS" then
    let ps := match st.mediaStatus with | some ms => ms.playerState | none => "IDLE"
    let r := sendMediaStatus cfg st sourceId p.requestId (some ps)
    ⟨r.1, [], [r.2], []⟩
  else if p.type = "SET_VOLUME" then
    let evs :=
      match p.volume with
      | some v => [CastEvent.volume cfg.speakerIp v.level v.muted]
      | none => []
    let r := sendMediaStatus cfg st sourceId p.requestId none
    ⟨r.1, evs, [r.2], []⟩
  else ⟨st, [], [], []⟩

/-- Source `_handleReceiver`: dispatch on `payload.type`.  `LAUNCH` starts the app
with a freshly generated session id (`newSessionId`) and clears media status;
`STOP` clears app and media state and emits a stop intent; `SET_VOLUME` emits
a volume intent when a volume record is present; every handled type replies
with receiver status. -/
def handleReceiver (cfg : CastDeviceConfig) (st : CastDeviceState)
    (sourceId : String) (newSessionId : Nat) (p : ReceiverPayload) : HandlerResult :=
  if p.type = "GET_STATUS" then
    ⟨st, [], [sendReceiverStatus cfg st sourceId p.requestId], []⟩
  else if p.type = "LAUNCH" then
    let st1 := { st with appRunning := true, sessionId := newSessionId, mediaStatus := none }
    ⟨st1, [], [sendReceiverStatus cfg st1 sourceId p.requestId], []⟩
  else if p.type = "STOP" then
    let st1 := { st with appRunning := false, mediaStatus := none }
    ⟨st1, [.stop cfg.speakerIp], [sendReceiverStatus cfg st1 sourceId p.requestId], []⟩
  else if p.type = "SET_VOLUME" then
    let evs :=
      match p.volume with
      | some v => [CastEvent.volume cfg.speakerIp v.level v.muted]
      | none => []
    ⟨st, evs, [sendReceiverStatus cfg st sourceId p.requestId], []⟩
  else ⟨st, [], [], []⟩

/-- One step of the per-receiver app/media state machine: an incoming
receiver- or media-namespace message, or the firing of a scheduled delayed
status push. -/
inductive DeviceInput
  | receiverMsg (sourceId : String) (newSessionId : Nat) (p : ReceiverPayload)
  | mediaMsg (sourceId : String) (p : MediaPayload)
  | timerFire (destinationId : String) (t : DelayedStatusPush)
deriving DecidableEq, Repr

/-- The state reached after one input. -/
def deviceStep (cfg : CastDeviceConfig) (st : CastDeviceState) : DeviceInput → CastDeviceState
  | .receiverMsg s n p => (handleReceiver cfg st s n p).state
  | .mediaMsg s p => (handleMedia cfg st s p).state
  | .timerFire d t => (sendMediaStatus cfg st d (some t.requestId) (some t.playerState)).1

/-- The state reached after a sequence of inputs. -/
def deviceRun (cfg : CastDeviceConfig) (st : CastDeviceState) : List DeviceInput → CastDeviceState
  | [] => st
  | i :: is => deviceRun cfg (deviceStep cfg st i) is

/-- Does `_handleMediaLoad` accept the payload?  `!media || !media.contentId`
drops it. -/
def loadAccepted (p : MediaPayload) : Bool :=
  match p.media with
  | some media =>
    match media.contentId with
    | some cid => cid != ""
    | none => false
  | none => false

/-! ## Device lifecycle (`CastDevice.stop` and the post-LOAD timer)

`stop()` stops the mDNS advertisement, calls `this._server.close()` and sets
`this._server = null`; it does not cancel the `setTimeout` scheduled by
`_handleMediaLoad`.  When that timer later fires, its callback runs
`this._sendMediaStatus(clientId, sourceId, 0, 'PLAYING')`, which first mutates
`this._mediaStatus.playerState` and then dereferences `this._server`. -/

/-- A device together with its protocol-server handle
(`serverUp` models `this._server !== null`). -/
structure CastDeviceFull where
  core : CastDeviceState
  serverUp : Bool
deriving DecidableEq, Repr

/-- Source `CastDevice.stop()`: tear down the server handle.  The session state and
any pending timers are left untouched. -/
def CastDevice.stopDevice (d : CastDeviceFull) : CastDeviceFull :=
  { d with serverUp := false }

/-- The firing of the post-LOAD delayed status push: run the
`_sendMediaStatus` body; if the server handle is gone the
`this._server.send(...)` call raises a `TypeError` out of the timer callback
(nothing is sent), after the `playerState` mutation has already happened. -/
def fireLoadTimerAfter (cfg : CastDeviceConfig) (d : CastDeviceFull)
    (destinationId : String) (t : DelayedStatusPush) :
    CastDeviceFull × Except String Reply :=
  let r := sendMediaStatus cfg d.core destinationId (some t.requestId) (some t.playerState)
  ({ d with core := r.1 },
   if d.serverUp then .ok r.2
   else .error "TypeError: Cannot read properties of null (reading send)")

/-! ## Device-authentication path (`CastDevice._handleDeviceAuth`,
`cast-auth.js`)

`_handleDeviceAuth` is in `cast-device.js`; the signature lookup it calls
lives in `cast-auth.js`, which is not part of the available sources and is
modelled from the spec below. -/

/-- The payload sent back on the device-authentication namespace. -/
inductive AuthSendPayload
  | response (buffer : List Nat)
  | errorMsg (errorType : Nat)
deriving DecidableEq, Repr

/-- One auth reply: always sent from `receiver-0` on the deviceauth
namespace. -/
structure AuthReply where
  destinationId : String
  ns : String
  payload : AuthSendPayload
deriving DecidableEq, Repr

/-- Modelled from the spec: `cast-auth.js` is not among the available
sources.  §4.4: dates fall into fixed 48-hour buckets starting from a known
epoch date; the bucket key for today is looked up in the static signature
table. -/
def signatureBucket (epochDate today : Nat) : Nat :=
  epochDate + 2 * ((today - epochDate) / 2)

/-- Modelled from the spec: the signature-table lookup — the table is a
static mapping from bucket-start date keys to 256-byte signature blobs. -/
def lookupSignature (table : List (Nat × List Nat)) (epochDate today : Nat) :
    Option (List Nat) :=
  (table.find? (fun e => e.1 = signatureBucket epochDate today)).map (·.2)

/-- Modelled from the spec: `castAuth.handleAuthChallenge` — on a covered
date, build and encode an `AuthResponse` sub-message carrying the signature
blob plus the fixed certificate chain (the encoded buffer is modelled as the
signature blob itself, its only varying part); on an uncovered date return
`null`. -/
def handleAuthChallenge (table : List (Nat × List Nat)) (epochDate today : Nat) :
    Option (List Nat) :=
  (lookupSignature table epochDate today).map id

/-- Source `_handleDeviceAuth`, given the outcome of `deviceAuthType.decode(data)`
(which may throw) and of `castAuth.handleAuthChallenge` (which may throw or
return `null`): a successful decode and a non-null buffer are answered with
that response buffer; a `null` buffer falls back to an `INTERNAL_ERROR`
(`errorType: 0`) sub-message; any exception is caught and answered with the
same error sub-message (the fallback encodes a constant record and cannot
itself fail). -/
def handleDeviceAuth (sourceId : String) (decoded : Except Unit Unit)
    (auth : Except Unit (Option (List Nat))) : List AuthReply :=
  match decoded with
  | .error _ => [⟨sourceId, NS_DEVICEAUTH, .errorMsg 0⟩]
  | .ok _ =>
    match auth with
    | .error _ => [⟨sourceId, NS_DEVICEAUTH, .errorMsg 0⟩]
    | .ok none => [⟨sourceId, NS_DEVICEAUTH, .errorMsg 0⟩]
    | .ok (some buf) => [⟨sourceId, NS_DEVICEAUTH, .response buf⟩]

/-- The Media Status record a successful `LOAD` creates, as a function of the
prior state and the payload fields (named for reuse in statements). -/
def loadStatusRecord (st : CastDeviceState) (mi : MediaRequestInfo) (cid : String)
    (p : MediaPayload) : MediaStatus :=
  { mediaSessionId := st.mediaRequestId + 1
    playerState := "BUFFERING"
    media :=
      { contentId := cid, contentType := mi.contentType.getD ""
        streamType := jsStrOr mi.streamType "BUFFERED", metadata := mi.metadata.getD "" }
    currentTime := p.currentTime.getD 0
    supportedMediaCommands := 274447
    volume := ⟨1, false⟩ }

/-- A concrete sample Media Status record used by concrete instances of the
theorems below. -/
def sampleStatus (ps : String) : MediaStatus :=
  ⟨1, ps, ⟨"http://x/a.mp3", "audio/mpeg", "BUFFERED", ""⟩, 0, 274447, ⟨1, false⟩⟩

/-- A concrete sample device configuration used by concrete instances of the
theorems below. -/
def sampleCfg : CastDeviceConfig := ⟨"192.168.1.50", "transport-ab"⟩

/-! ## Identity store (`DeviceRegistry.getOrCreateDevice`) -/

/-- One persisted registry record. -/
structure DeviceEntry where
  deviceId : String
  certKey : String
  certCert : String
  createdAt : Nat
  lastSeen : Nat
deriving DecidableEq, Repr

/-- The identity returned to the caller. -/
structure DeviceIdentity where
  deviceId : String
  certKey : String
  certCert : String
deriving DecidableEq, Repr

/-- The in-memory registry object, keyed by speaker IP. -/
def Registry : Type := String → Option DeviceEntry

/-- Source `DeviceRegistry.getOrCreateDevice(speakerIp, friendlyName)`.  The fresh
uuid, the freshly generated self-signed key/cert pair (bound to
`friendlyName`) and the current timestamp enter as explicit inputs.  An
absent key creates and persists a new record; a present key only refreshes
its `lastSeen` timestamp.  Either way the stored `deviceId` and certificate
are returned. -/
def getOrCreateDevice (reg : Registry) (speakerIp : String) (_friendlyName : String)
    (freshId freshKey freshCert : String) (now : Nat) :
    DeviceIdentity × Registry :=
  match reg speakerIp with
  | none =>
    let entry : DeviceEntry :=
      { deviceId := freshId, certKey := freshKey, certCert := freshCert
        createdAt := now, lastSeen := now }
    (⟨entry.deviceId, entry.certKey, entry.certCert⟩,
     fun k => if k = speakerIp then some entry else reg k)
  | some entry =>
    let entry2 := { entry with lastSeen := now }
    (⟨entry.deviceId, entry.certKey, entry.certCert⟩,
     fun k => if k = speakerIp then some entry2 else reg k)


/-! ## Supporting lemmas: frame codec -/

theorem parseVarint_encodeVarint (n : Nat) (rest : List Nat) :
    parseVarint (encodeVarint n ++ rest) = some (n, rest) := by
  induction n using Nat.strong_induction_on with
  | _ n ih =>
    rw [encodeVarint]
    split
    · rename_i h
      simp [parseVarint, h]
    · rename_i h
      push_neg at h
      simp only [List.cons_append, parseVarint, List.append_eq]
      rw [if_neg (by omega)]
      rw [ih (n / 128) (by omega)]
      simp only [Option.some.injEq, Prod.mk.injEq]
      constructor
      · omega
      · trivial

theorem parseLenDelim_encoded (b rest : List Nat) :
    parseLenDelim (encodeVarint b.length ++ (b ++ rest)) = some (b, rest) := by
  unfold parseLenDelim
  rw [parseVarint_encodeVarint]
  dsimp only
  rw [if_neg (by simp)]
  simp [List.take_left, List.drop_left]

theorem decodeLoop_field1 (fuel v : Nat) (rest : List Nat) (m : CastMessage) :
    decodeLoop (fuel + 1) (encVarintField 1 v ++ rest) m =
      decodeLoop fuel rest { m with protocolVersion := v } := by
  simp [encVarintField, decodeLoop, parseVarint, parseVarint_encodeVarint]

theorem decodeLoop_field5 (fuel v : Nat) (rest : List Nat) (m : CastMessage) :
    decodeLoop (fuel + 1) (encVarintField 5 v ++ rest) m =
      decodeLoop fuel rest { m with payloadType := v } := by
  simp [encVarintField, decodeLoop, parseVarint, parseVarint_encodeVarint]

theorem decodeLoop_field2 (fuel : Nat) (bs rest : List Nat) (m : CastMessage) :
    decodeLoop (fuel + 1) (encBytesField 2 bs ++ rest) m =
      decodeLoop fuel rest { m with sourceId := bs } := by
  simp [encBytesField, decodeLoop, parseVarint, parseLenDelim_encoded, List.append_assoc]

theorem decodeLoop_field3 (fuel : Nat) (bs rest : List Nat) (m : CastMessage) :
    decodeLoop (fuel + 1) (encBytesField 3 bs ++ rest) m =
      decodeLoop fuel rest { m with destinationId := bs } := by
  simp [encBytesField, decodeLoop, parseVarint, parseLenDelim_encoded, List.append_assoc]

theorem decodeLoop_field4 (fuel : Nat) (bs rest : List Nat) (m : CastMessage) :
    decodeLoop (fuel + 1) (encBytesField 4 bs ++ rest) m =
      decodeLoop fuel rest { m with ns := bs } := by
  simp [encBytesField, decodeLoop, parseVarint, parseLenDelim_encoded, List.append_assoc]

theorem decodeLoop_field6 (fuel : Nat) (bs rest : List Nat) (m : CastMessage) :
    decodeLoop (fuel + 1) (encBytesField 6 bs ++ rest) m =
      decodeLoop fuel rest { m with payloadUtf8 := some bs } := by
  simp [encBytesField, decodeLoop, parseVarint, parseLenDelim_encoded, List.append_assoc]

theorem decodeLoop_field7 (fuel : Nat) (bs rest : List Nat) (m : CastMessage) :
    decodeLoop (fuel + 1) (encBytesField 7 bs ++ rest) m =
      decodeLoop fuel rest { m with payloadBinary := some bs } := by
  simp [encBytesField, decodeLoop, parseVarint, parseLenDelim_encoded, List.append_assoc]

theorem decodeLoop_field7_last (fuel : Nat) (bs : List Nat) (m : CastMessage) :
    decodeLoop (fuel + 1) (encBytesField 7 bs) m =
      decodeLoop fuel [] { m with payloadBinary := some bs } := by
  have h := decodeLoop_field7 fuel bs [] m
  simpa using h

theorem decodeLoop_nil (fuel : Nat) (m : CastMessage) :
    decodeLoop fuel [] m = some m := by
  cases fuel <;> rfl

theorem decodeLoop_encode (f : Nat) (src dst ns : List Nat) (d : PayloadData) :
    decodeLoop (f + 6) (encodeCastMessage (CastProtocolServer.buildMessage src dst ns d))
        emptyCastMessage =
      some (CastProtocolServer.buildMessage src dst ns d) := by
  cases d with
  | text s =>
    simp only [CastProtocolServer.buildMessage, encodeCastMessage, List.append_assoc,
      List.nil_append]
    rw [show f + 6 = f + 5 + 1 from rfl, decodeLoop_field1]
    rw [show f + 5 = f + 4 + 1 from rfl, decodeLoop_field2]
    rw [show f + 4 = f + 3 + 1 from rfl, decodeLoop_field3]
    rw [show f + 3 = f + 2 + 1 from rfl, decodeLoop_field4]
    rw [show f + 2 = f + 1 + 1 from rfl, decodeLoop_field5]
    rw [decodeLoop_field6]
    rw [decodeLoop_nil]
    rfl
  | binary b =>
    simp only [CastProtocolServer.buildMessage, encodeCastMessage, List.append_assoc,
      List.nil_append]
    rw [show f + 6 = f + 5 + 1 from rfl, decodeLoop_field1]
    rw [show f + 5 = f + 4 + 1 from rfl, decodeLoop_field2]
    rw [show f + 4 = f + 3 + 1 from rfl, decodeLoop_field3]
    rw [show f + 3 = f + 2 + 1 from rfl, decodeLoop_field4]
    rw [show f + 2 = f + 1 + 1 from rfl, decodeLoop_field5]
    rw [decodeLoop_field7_last]
    rw [decodeLoop_nil]
    rfl

theorem encodeVarint_length_pos (n : Nat) : 0 < (encodeVarint n).length := by
  rw [encodeVarint]
  split <;> simp

theorem encodeCastMessage_length_ge (m : CastMessage) : 6 ≤ (encodeCastMessage m).length := by
  have h1 := encodeVarint_length_pos m.protocolVersion
  have h2 := encodeVarint_length_pos m.sourceId.length
  have h3 := encodeVarint_length_pos m.destinationId.length
  have h4 := encodeVarint_length_pos m.ns.length
  have h5 := encodeVarint_length_pos m.payloadType
  rcases m with ⟨pv, sA, dA, nA, pt, _ | u, _ | b⟩ <;>
    simp [encodeCastMessage, encVarintField, encBytesField] at * <;> omega

theorem decodeCastMessage_encodeCastMessage (src dst ns : List Nat) (d : PayloadData) :
    decodeCastMessage (encodeCastMessage (CastProtocolServer.buildMessage src dst ns d)) =
      some (CastProtocolServer.buildMessage src dst ns d) := by
  unfold decodeCastMessage
  obtain ⟨f, hf⟩ :
      ∃ f, (encodeCastMessage (CastProtocolServer.buildMessage src dst ns d)).length = f + 6 :=
    ⟨(encodeCastMessage (CastProtocolServer.buildMessage src dst ns d)).length - 6, by
      have := encodeCastMessage_length_ge (CastProtocolServer.buildMessage src dst ns d)
      omega⟩
  rw [hf]
  exact decodeLoop_encode f src dst ns d

theorem readUInt32BE_append (buffer extra : List Nat) (h : 4 ≤ buffer.length) :
    readUInt32BE (buffer ++ extra) = readUInt32BE buffer := by
  match buffer with
  | b0 :: b1 :: b2 :: b3 :: t => rfl
  | [] => simp at h
  | [_] => simp at h
  | [_, _] => simp at h
  | [_, _, _] => simp at h

theorem pkLoop_prefix_wait (buffer : List Nat) (h : buffer.length < 4) :
    pkLoop buffer none = ([], ⟨buffer, none⟩) := by
  rw [pkLoop]; simp [h]

theorem pkLoop_prefix_read (buffer : List Nat) (h : ¬ buffer.length < 4) :
    pkLoop buffer none = pkLoop (buffer.drop 4) (some (readUInt32BE buffer)) := by
  conv_lhs => rw [pkLoop]
  simp [h]

theorem pkLoop_body_wait (buffer : List Nat) (n : Nat) (h : buffer.length < n) :
    pkLoop buffer (some n) = ([], ⟨buffer, some n⟩) := by
  rw [pkLoop]; simp [h]

theorem pkLoop_body_emit (buffer : List Nat) (n : Nat) (h : ¬ buffer.length < n) :
    pkLoop buffer (some n) =
      (buffer.take n :: (pkLoop (buffer.drop n) none).1,
       (pkLoop (buffer.drop n) none).2) := by
  conv_lhs => rw [pkLoop]
  simp [h]

theorem pkLoop_append (buffer : List Nat) (expected : Option Nat) (extra : List Nat) :
    pkLoop (buffer ++ extra) expected =
      ((pkLoop buffer expected).1 ++
         (pkLoop ((pkLoop buffer expected).2.buffer ++ extra)
           (pkLoop buffer expected).2.expectedLength).1,
       (pkLoop ((pkLoop buffer expected).2.buffer ++ extra)
         (pkLoop buffer expected).2.expectedLength).2) := by
  induction buffer, expected using pkLoop.induct with
  | case1 buffer h =>
    rw [pkLoop_prefix_wait buffer h]
    simp
  | case2 buffer h ih =>
    have hlen : ¬ (buffer ++ extra).length < 4 := by simp; omega
    rw [pkLoop_prefix_read buffer h,
      pkLoop_prefix_read (buffer ++ extra) hlen,
      readUInt32BE_append buffer extra (by omega),
      List.drop_append_of_le_length (show 4 ≤ buffer.length by omega)]
    exact ih
  | case3 buffer n h =>
    rw [pkLoop_body_wait buffer n h]
    simp
  | case4 buffer n h ih =>
    have hlen : ¬ (buffer ++ extra).length < n := by simp; omega
    rw [pkLoop_body_emit buffer n h,
      pkLoop_body_emit (buffer ++ extra) n hlen,
      List.take_append_of_le_length (show n ≤ buffer.length by omega),
      List.drop_append_of_le_length (show n ≤ buffer.length by omega)]
    dsimp only
    rw [ih]
    simp

theorem pkLoop_residual (buffer : List Nat) (expected : Option Nat) :
    pkLoop (pkLoop buffer expected).2.buffer (pkLoop buffer expected).2.expectedLength =
      ([], (pkLoop buffer expected).2) := by
  induction buffer, expected using pkLoop.induct with
  | case1 buffer h =>
    rw [pkLoop_prefix_wait buffer h]
    exact pkLoop_prefix_wait buffer h
  | case2 buffer h ih =>
    rw [pkLoop_prefix_read buffer h]
    exact ih
  | case3 buffer n h =>
    rw [pkLoop_body_wait buffer n h]
    exact pkLoop_body_wait buffer n h
  | case4 buffer n h ih =>
    rw [pkLoop_body_emit buffer n h]
    exact ih

theorem feed_flatten (chunks : List (List Nat)) (st : ReaderState)
    (hq : pkLoop st.buffer st.expectedLength = ([], st)) :
    PacketReader.feed st chunks = pkLoop (st.buffer ++ chunks.flatten) st.expectedLength := by
  induction chunks generalizing st with
  | nil =>
    simp only [PacketReader.feed, List.flatten_nil, List.append_nil]
    exact hq.symm
  | cons c cs ih =>
    simp only [PacketReader.feed, PacketReader.onData, List.flatten_cons]
    have hres := pkLoop_residual (st.buffer ++ c) st.expectedLength
    rw [ih _ hres]
    have := pkLoop_append (st.buffer ++ c) st.expectedLength cs.flatten
    rw [← List.append_assoc] at *
    rw [this]

theorem readUInt32BE_writeUInt32BE (n : Nat) (rest : List Nat) (h : n < 2 ^ 32) :
    readUInt32BE (writeUInt32BE n ++ rest) = n := by
  simp only [writeUInt32BE, List.cons_append, List.nil_append, readUInt32BE]
  norm_num
  omega

theorem pkLoop_frames (bodies : List (List Nat)) (h : ∀ b ∈ bodies, b.length < 2 ^ 32) :
    pkLoop (bodies.map (fun b => writeUInt32BE b.length ++ b)).flatten none =
      (bodies, ⟨[], none⟩) := by
  induction bodies with
  | nil =>
    simp only [List.map_nil, List.flatten_nil]
    exact pkLoop_prefix_wait [] (by simp)
  | cons b bs ih =>
    simp only [List.map_cons, List.flatten_cons, List.append_assoc]
    have hb := h b (by simp)
    have hrest : ∀ x ∈ bs, x.length < 2 ^ 32 := fun x hx => h x (by simp [hx])
    have h4 : (writeUInt32BE b.length).length = 4 := by simp [writeUInt32BE]
    set rest := (bs.map (fun x => writeUInt32BE x.length ++ x)).flatten with hrestdef
    have hlen : ¬ (writeUInt32BE b.length ++ (b ++ rest)).length < 4 := by
      simp [h4]
    rw [pkLoop_prefix_read _ hlen]
    rw [readUInt32BE_writeUInt32BE b.length (b ++ rest) hb]
    have hdrop : (writeUInt32BE b.length ++ (b ++ rest)).drop 4 = b ++ rest := by
      rw [← h4, List.drop_left]
    rw [hdrop]
    have hlen2 : ¬ (b ++ rest).length < b.length := by simp
    rw [pkLoop_body_emit _ _ hlen2]
    rw [List.take_left, List.drop_left]
    rw [ih hrest]

theorem filterMap_decode (msgs : List CastMessage)
    (hshape : ∀ m ∈ msgs, ∃ src dst ns d, m = CastProtocolServer.buildMessage src dst ns d) :
    (msgs.map encodeCastMessage).filterMap decodeCastMessage = msgs := by
  induction msgs with
  | nil => rfl
  | cons m ms ih =>
    obtain ⟨src, dst, ns, d, rfl⟩ := hshape m (by simp)
    simp only [List.map_cons, List.filterMap_cons,
      decodeCastMessage_encodeCastMessage src dst ns d]
    rw [ih (fun x hx => hshape x (by simp [hx]))]

/-! ## Supporting lemmas: session engine -/

theorem sendMediaStatus_appRunning (cfg : CastDeviceConfig) (st : CastDeviceState)
    (d : String) (rid : Option Nat) (ps : Option String) :
    (sendMediaStatus cfg st d rid ps).1.appRunning = st.appRunning := by
  unfold sendMediaStatus
  rcases st with ⟨a, b, c, _ | ms⟩ <;> rcases ps with _ | p <;> rfl

theorem sendMediaStatus_sessionId (cfg : CastDeviceConfig) (st : CastDeviceState)
    (d : String) (rid : Option Nat) (ps : Option String) :
    (sendMediaStatus cfg st d rid ps).1.sessionId = st.sessionId := by
  unfold sendMediaStatus
  rcases st with ⟨a, b, c, _ | ms⟩ <;> rcases ps with _ | p <;> rfl

theorem sendMediaStatus_mediaRequestId (cfg : CastDeviceConfig) (st : CastDeviceState)
    (d : String) (rid : Option Nat) (ps : Option String) :
    (sendMediaStatus cfg st d rid ps).1.mediaRequestId = st.mediaRequestId := by
  unfold sendMediaStatus
  rcases st with ⟨a, b, c, _ | ms⟩ <;> rcases ps with _ | p <;> rfl

theorem handleMediaLoad_mediaRequestId_le (cfg : CastDeviceConfig) (st : CastDeviceState)
    (s : String) (p : MediaPayload) :
    st.mediaRequestId ≤ (handleMediaLoad cfg st s p).state.mediaRequestId := by
  unfold handleMediaLoad
  rcases p with ⟨ty, rid, _ | mi, ap, ct, vol⟩
  · simp
  · rcases mi with ⟨_ | cid, a, b, c⟩
    · simp
    · dsimp only
      split_ifs
      · simp
      · simp [sendMediaStatus_mediaRequestId]

theorem deviceStep_mediaRequestId_le (cfg : CastDeviceConfig) (st : CastDeviceState)
    (i : DeviceInput) :
    st.mediaRequestId ≤ (deviceStep cfg st i).mediaRequestId := by
  rcases i with ⟨s, n, p⟩ | ⟨s, p⟩ | ⟨d, t⟩
  · simp only [deviceStep]
    unfold handleReceiver
    split_ifs <;> simp
  · simp only [deviceStep]
    unfold handleMedia
    split_ifs
    · exact handleMediaLoad_mediaRequestId_le cfg st s p
    all_goals simp [sendMediaStatus_mediaRequestId]
  · simp only [deviceStep]
    simp [sendMediaStatus_mediaRequestId]

theorem deviceRun_mediaRequestId_le (cfg : CastDeviceConfig) (st : CastDeviceState)
    (tr : List DeviceInput) :
    st.mediaRequestId ≤ (deviceRun cfg st tr).mediaRequestId := by
  induction tr generalizing st with
  | nil => exact le_refl _
  | cons i is ih =>
    exact le_trans (deviceStep_mediaRequestId_le cfg st i) (ih (deviceStep cfg st i))

theorem handleMediaLoad_ok (cfg : CastDeviceConfig) (st : CastDeviceState)
    (src : String) (p : MediaPayload) (h : loadAccepted p = true) :
    (handleMediaLoad cfg st src p).state.mediaRequestId = st.mediaRequestId + 1 ∧
    ∃ ms, (handleMediaLoad cfg st src p).state.mediaStatus = some ms ∧
          ms.mediaSessionId = st.mediaRequestId + 1 := by
  unfold loadAccepted at h
  rcases p with ⟨ty, rid, _ | mi, ap, ct, vol⟩
  · simp at h
  · rcases mi with ⟨_ | cid, a, b, c⟩
    · simp at h
    · simp only [bne_iff_ne, ne_eq] at h
      unfold handleMediaLoad sendMediaStatus
      simp [h]

theorem handleMedia_load_eq (cfg : CastDeviceConfig) (st : CastDeviceState)
    (src : String) (p : MediaPayload) (ht : p.type = "LOAD") :
    handleMedia cfg st src p = handleMediaLoad cfg st src p := by
  unfold handleMedia
  rw [ht]
  simp


/-! ## Claim theorems -/

/-- C1: Framing round-trip — for every finite sequence of envelope messages of
the shape the send path constructs (and whose encodings fit the 4-byte length
prefix, as `writeUInt32BE` requires), encoding each with the send path (4-byte
big-endian length prefix followed by the encoded envelope), concatenating the
results, and splitting the concatenation at arbitrary chunk boundaries before
feeding the chunks to the `PacketReader` yields exactly the original sequence
of decoded messages in the original order. -/
theorem framing_round_trip (msgs : List CastMessage) (chunks : List (List Nat))
    (hshape : ∀ m ∈ msgs,
      ∃ src dst ns d, m = CastProtocolServer.buildMessage src dst ns d)
    (hlen : ∀ m ∈ msgs, (encodeCastMessage m).length < 2 ^ 32)
    (hsplit : chunks.flatten = (msgs.map CastProtocolServer.sendBytes).flatten) :
    readerMessages chunks = msgs := by
  unfold readerMessages PacketReader.initial
  rw [feed_flatten chunks ⟨[], none⟩ (pkLoop_prefix_wait [] (by simp))]
  simp only [List.nil_append]
  rw [hsplit]
  have hmap : msgs.map CastProtocolServer.sendBytes =
      (msgs.map encodeCastMessage).map (fun b => writeUInt32BE b.length ++ b) := by
    simp [CastProtocolServer.sendBytes, Function.comp]
  rw [hmap]
  rw [pkLoop_frames (msgs.map encodeCastMessage)
    (by intro b hb; obtain ⟨m, hm, rfl⟩ := List.mem_map.mp hb; exact hlen m hm)]
  exact filterMap_decode msgs hshape

/-- Witness for C1 at a concrete two-message sequence, split into two chunks
of one byte and the remainder (a boundary inside the first length prefix). -/
theorem framing_round_trip_witness :
    readerMessages
        [(CastProtocolServer.sendBytes
            (CastProtocolServer.buildMessage [1] [2] [3] (.text [10, 11]))).take 1,
         (CastProtocolServer.sendBytes
            (CastProtocolServer.buildMessage [1] [2] [3] (.text [10, 11]))).drop 1 ++
           CastProtocolServer.sendBytes
             (CastProtocolServer.buildMessage [4] [5] [6] (.binary [12]))] =
      [CastProtocolServer.buildMessage [1] [2] [3] (.text [10, 11]),
       CastProtocolServer.buildMessage [4] [5] [6] (.binary [12])] := by
  apply framing_round_trip
  · intro m hm
    simp only [List.mem_cons, List.not_mem_nil, or_false] at hm
    rcases hm with rfl | rfl
    · exact ⟨[1], [2], [3], .text [10, 11], rfl⟩
    · exact ⟨[4], [5], [6], .binary [12], rfl⟩
  · intro m hm
    simp only [List.mem_cons, List.not_mem_nil, or_false] at hm
    rcases hm with rfl | rfl <;>
      simp [encodeCastMessage, encVarintField, encBytesField, encodeVarint,
        CastProtocolServer.buildMessage]
  · simp only [List.flatten_cons, List.flatten_nil, List.append_nil, List.map_cons,
      List.map_nil, ← List.append_assoc, List.take_append_drop]

/-- C2: Device-authentication always answers — the handler sends exactly one
reply on the device-authentication namespace of the connection: a response
sub-message when a signature covers the current date, otherwise an
`INTERNAL_ERROR` (`errorType 0`) error sub-message; a decode or encode
exception on the path is caught and still answered with the error
sub-message, and the handler itself never throws (it is a total function). -/
theorem device_auth_always_answers (src : String) (table : List (Nat × List Nat))
    (epochDate today : Nat) (d : Except Unit Unit) (a : Except Unit (Option (List Nat))) :
    (handleDeviceAuth src d a).length = 1 ∧
    (∀ r ∈ handleDeviceAuth src d a, r.ns = NS_DEVICEAUTH ∧ r.destinationId = src) ∧
    (∀ e, d = .error e → handleDeviceAuth src d a = [⟨src, NS_DEVICEAUTH, .errorMsg 0⟩]) ∧
    (∀ e, a = .error e → handleDeviceAuth src d a = [⟨src, NS_DEVICEAUTH, .errorMsg 0⟩]) ∧
    (handleDeviceAuth src (.ok ()) (.ok (handleAuthChallenge table epochDate today)) =
      match lookupSignature table epochDate today with
      | some sig => [⟨src, NS_DEVICEAUTH, .response sig⟩]
      | none => [⟨src, NS_DEVICEAUTH, .errorMsg 0⟩]) := by
  refine ⟨?_, ?_, ?_, ?_, ?_⟩
  · rcases d with _ | _ <;> rcases a with _ | (_ | buf) <;> rfl
  · rcases d with _ | _ <;> rcases a with _ | (_ | buf) <;> simp [handleDeviceAuth]
  · rintro e rfl
    rfl
  · rintro e rfl
    rcases d with _ | _ <;> rfl
  · unfold handleAuthChallenge
    rcases h : lookupSignature table epochDate today with _ | sig <;>
      simp [handleDeviceAuth, h]

/-- Witness for C2: a decode exception on an empty signature table is still
answered with exactly the error sub-message. -/
theorem device_auth_always_answers_witness :
    handleDeviceAuth "sender-0" (.error ()) (.ok none) =
      [⟨"sender-0", NS_DEVICEAUTH, .errorMsg 0⟩] :=
  (device_auth_always_answers "sender-0" [] 0 0 (.error ()) (.ok none)).2.2.1 () rfl

/-- C3 counterexample: a media-namespace `STOP` on a device with a running app
and a `PLAYING` media record leaves `appRunning = true` and keeps the media
record (with `playerState` merely set to `IDLE`), contradicting the claim that
a `STOP` on either namespace always yields `appRunning = false` and no
media-status record. -/
theorem stop_totality_counterexample :
    ¬ (((handleMedia sampleCfg ⟨true, 7, 1, some (sampleStatus "PLAYING")⟩
          "sender-0" ⟨"STOP", some 3, none, .undef, none, none⟩).state.appRunning = false) ∧
       ((handleMedia sampleCfg ⟨true, 7, 1, some (sampleStatus "PLAYING")⟩
          "sender-0" ⟨"STOP", some 3, none, .undef, none, none⟩).state.mediaStatus = none)) := by
  simp [handleMedia, sendMediaStatus, sampleCfg, sampleStatus]

/-- C3 (amended): a receiver-namespace `STOP` from any state yields
`appRunning = false` and no media-status record; a media-namespace `STOP`
emits a stop intent but leaves `appRunning` unchanged and keeps any existing
media-status record, only setting its `playerState` to `IDLE`. -/
theorem stop_behaviour_by_namespace (cfg : CastDeviceConfig) (st : CastDeviceState)
    (src : String) (nsid : Nat) (pR : ReceiverPayload) (pM : MediaPayload)
    (hR : pR.type = "STOP") (hM : pM.type = "STOP") :
    (handleReceiver cfg st src nsid pR).state.appRunning = false ∧
    (handleReceiver cfg st src nsid pR).state.mediaStatus = none ∧
    (handleReceiver cfg st src nsid pR).events = [.stop cfg.speakerIp] ∧
    (handleMedia cfg st src pM).state.appRunning = st.appRunning ∧
    (handleMedia cfg st src pM).state.mediaStatus
      = st.mediaStatus.map (fun ms => { ms with playerState := "IDLE" }) ∧
    (handleMedia cfg st src pM).events = [.stop cfg.speakerIp] := by
  unfold handleReceiver handleMedia sendMediaStatus
  rw [hR, hM]
  rcases st with ⟨a, sid, mrid, _ | ms⟩ <;> simp

/-- Witness for C3's amended theorem at a concrete running device. -/
theorem stop_behaviour_by_namespace_witness :
    (handleReceiver sampleCfg ⟨true, 7, 1, some (sampleStatus "PLAYING")⟩ "sender-0" 9
        ⟨"STOP", some 2, none, none⟩).state.appRunning = false ∧
    (handleReceiver sampleCfg ⟨true, 7, 1, some (sampleStatus "PLAYING")⟩ "sender-0" 9
        ⟨"STOP", some 2, none, none⟩).state.mediaStatus = none ∧
    (handleReceiver sampleCfg ⟨true, 7, 1, some (sampleStatus "PLAYING")⟩ "sender-0" 9
        ⟨"STOP", some 2, none, none⟩).events = [.stop sampleCfg.speakerIp] ∧
    (handleMedia sampleCfg ⟨true, 7, 1, some (sampleStatus "PLAYING")⟩ "sender-0"
        ⟨"STOP", some 3, none, .undef, none, none⟩).state.appRunning =
      (⟨true, 7, 1, some (sampleStatus "PLAYING")⟩ : CastDeviceState).appRunning ∧
    (handleMedia sampleCfg ⟨true, 7, 1, some (sampleStatus "PLAYING")⟩ "sender-0"
        ⟨"STOP", some 3, none, .undef, none, none⟩).state.mediaStatus =
      (⟨true, 7, 1, some (sampleStatus "PLAYING")⟩ : CastDeviceState).mediaStatus.map
        (fun ms => { ms with playerState := "IDLE" }) ∧
    (handleMedia sampleCfg ⟨true, 7, 1, some (sampleStatus "PLAYING")⟩ "sender-0"
        ⟨"STOP", some 3, none, .undef, none, none⟩).events = [.stop sampleCfg.speakerIp] :=
  stop_behaviour_by_namespace sampleCfg ⟨true, 7, 1, some (sampleStatus "PLAYING")⟩
    "sender-0" 9 ⟨"STOP", some 2, none, none⟩ ⟨"STOP", some 3, none, .undef, none, none⟩
    rfl rfl

/-- C4 counterexample: a media-namespace `SEEK` on a `PAUSED` record does not
leave the record's `playerState` unchanged — it becomes `PLAYING`. -/
theorem seek_preserves_state_counterexample :
    (handleMedia sampleCfg ⟨true, 7, 1, some (sampleStatus "PAUSED")⟩
        "sender-0" ⟨"SEEK", some 4, none, .undef, some 30, none⟩).state.mediaStatus.map
        MediaStatus.playerState ≠ some "PAUSED" := by
  simp [handleMedia, sendMediaStatus, sampleCfg, sampleStatus]

/-- C4 (amended): a media-namespace `SEEK` emits a seek intent carrying the
payload's `currentTime` and sets the existing record's `playerState` to
`PLAYING` (the handler replies with `PLAYING` status), rather than leaving the
player state unchanged. -/
theorem seek_sets_playing (cfg : CastDeviceConfig) (st : CastDeviceState)
    (src : String) (p : MediaPayload) (ms : MediaStatus)
    (ht : p.type = "SEEK") (hm : st.mediaStatus = some ms) :
    (handleMedia cfg st src p).state
      = { st with mediaStatus := some { ms with playerState := "PLAYING" } } ∧
    (handleMedia cfg st src p).events = [.seek cfg.speakerIp p.currentTime] ∧
    (handleMedia cfg st src p).replies =
      [⟨cfg.transportId, src, NS_MEDIA,
        .mediaStatus (p.requestId.getD 0) [{ ms with playerState := "PLAYING" }]⟩] := by
  unfold handleMedia sendMediaStatus
  rw [ht, hm]
  simp

/-- Witness for C4's amended theorem at a concrete `PAUSED` record. -/
theorem seek_sets_playing_witness :
    (handleMedia sampleCfg ⟨true, 7, 1, some (sampleStatus "PAUSED")⟩ "sender-0"
        ⟨"SEEK", some 4, none, .undef, some 30, none⟩).state
      = { (⟨true, 7, 1, some (sampleStatus "PAUSED")⟩ : CastDeviceState) with
          mediaStatus := some { sampleStatus "PAUSED" with playerState := "PLAYING" } } ∧
    (handleMedia sampleCfg ⟨true, 7, 1, some (sampleStatus "PAUSED")⟩ "sender-0"
        ⟨"SEEK", some 4, none, .undef, some 30, none⟩).events =
      [.seek sampleCfg.speakerIp (some 30)] ∧
    (handleMedia sampleCfg ⟨true, 7, 1, some (sampleStatus "PAUSED")⟩ "sender-0"
        ⟨"SEEK", some 4, none, .undef, some 30, none⟩).replies =
      [⟨sampleCfg.transportId, "sender-0", NS_MEDIA,
        .mediaStatus 4 [{ sampleStatus "PAUSED" with playerState := "PLAYING" }]⟩] :=
  seek_sets_playing sampleCfg ⟨true, 7, 1, some (sampleStatus "PAUSED")⟩ "sender-0"
    ⟨"SEEK", some 4, none, .undef, some 30, none⟩ (sampleStatus "PAUSED") rfl rfl

/-- C5: Monotonic media session id — for two successful `LOAD` operations on
one receiver separated by an arbitrary run of receiver/media/timer inputs
(including app relaunches and STOPs), the `mediaSessionId` assigned by the
later `LOAD` is strictly greater than the one assigned by the earlier one. -/
theorem monotonic_media_session_id (cfg : CastDeviceConfig) (st : CastDeviceState)
    (src1 src2 : String) (tr : List DeviceInput) (p1 p2 : MediaPayload)
    (ms1 ms2 : MediaStatus)
    (h1t : p1.type = "LOAD") (h1 : loadAccepted p1 = true)
    (h2t : p2.type = "LOAD") (h2 : loadAccepted p2 = true)
    (e1 : (handleMedia cfg st src1 p1).state.mediaStatus = some ms1)
    (e2 : (handleMedia cfg (deviceRun cfg (handleMedia cfg st src1 p1).state tr)
            src2 p2).state.mediaStatus = some ms2) :
    ms1.mediaSessionId < ms2.mediaSessionId := by
  have hm1 := handleMedia_load_eq cfg st src1 p1 h1t
  set st2 := deviceRun cfg (handleMedia cfg st src1 p1).state tr with hst2
  have hm2 := handleMedia_load_eq cfg st2 src2 p2 h2t
  obtain ⟨hr1, msA, hA, hAid⟩ := handleMediaLoad_ok cfg st src1 p1 h1
  obtain ⟨hr2, msB, hB, hBid⟩ := handleMediaLoad_ok cfg st2 src2 p2 h2
  rw [hm1] at e1
  rw [hm2] at e2
  rw [e1] at hA
  rw [e2] at hB
  obtain rfl : ms1 = msA := by injection hA
  obtain rfl : ms2 = msB := by injection hB
  have hrun : (handleMediaLoad cfg st src1 p1).state.mediaRequestId ≤ st2.mediaRequestId := by
    rw [hst2, hm1]
    exact deviceRun_mediaRequestId_le cfg _ tr
  omega

/-- Witness for C5: two concrete `LOAD`s separated by a receiver `STOP` get
session ids 1 and 2. -/
theorem monotonic_media_session_id_witness :
    (handleMedia sampleCfg ⟨false, 0, 0, none⟩ "s1"
        ⟨"LOAD", some 1, some ⟨some "http://x/a.mp3", none, none, none⟩, .undef,
          none, none⟩).state.mediaStatus =
      some ⟨1, "BUFFERING", ⟨"http://x/a.mp3", "", "BUFFERED", ""⟩, 0, 274447, ⟨1, false⟩⟩ ∧
    (handleMedia sampleCfg
        (deviceRun sampleCfg
          (handleMedia sampleCfg ⟨false, 0, 0, none⟩ "s1"
            ⟨"LOAD", some 1, some ⟨some "http://x/a.mp3", none, none, none⟩, .undef,
              none, none⟩).state
          [.receiverMsg "s1" 9 ⟨"STOP", some 2, none, none⟩])
        "s2"
        ⟨"LOAD", some 3, some ⟨some "http://x/b.mp3", none, none, none⟩, .undef,
          none, none⟩).state.mediaStatus =
      some ⟨2, "BUFFERING", ⟨"http://x/b.mp3", "", "BUFFERED", ""⟩, 0, 274447, ⟨1, false⟩⟩ ∧
    (1 : Nat) < 2 := by
  refine ⟨rfl, rfl, ?_⟩
  exact monotonic_media_session_id sampleCfg ⟨false, 0, 0, none⟩ "s1" "s2"
    [.receiverMsg "s1" 9 ⟨"STOP", some 2, none, none⟩]
    ⟨"LOAD", some 1, some ⟨some "http://x/a.mp3", none, none, none⟩, .undef, none, none⟩
    ⟨"LOAD", some 3, some ⟨some "http://x/b.mp3", none, none, none⟩, .undef, none, none⟩
    ⟨1, "BUFFERING", ⟨"http://x/a.mp3", "", "BUFFERED", ""⟩, 0, 274447, ⟨1, false⟩⟩
    ⟨2, "BUFFERING", ⟨"http://x/b.mp3", "", "BUFFERED", ""⟩, 0, 274447, ⟨1, false⟩⟩
    rfl rfl rfl rfl rfl rfl

/-- C6: LOAD behaviour — a `LOAD` without a `media.contentId` is dropped with
no reply, no event and no state change; otherwise a fresh `BUFFERING` record
is created, a load intent carrying content id, content type, stream type,
metadata, autoplay flag and start time is emitted, a `BUFFERING` status reply
is sent, a 500 ms delayed push is scheduled, and running that push transitions
the record to `PLAYING` and sends an unsolicited (`requestId 0`) status
push. -/
theorem load_behaviour (cfg : CastDeviceConfig) (st : CastDeviceState)
    (src : String) (p : MediaPayload) (ht : p.type = "LOAD") :
    ((p.media = none ∨
        (∃ mi, p.media = some mi ∧ (mi.contentId = none ∨ mi.contentId = some ""))) →
      handleMedia cfg st src p = ⟨st, [], [], []⟩) ∧
    (∀ mi cid, p.media = some mi → mi.contentId = some cid → cid ≠ "" →
      handleMedia cfg st src p =
        ⟨{ st with
             mediaRequestId := st.mediaRequestId + 1
             mediaStatus := some (loadStatusRecord st mi cid p) },
         [.load cfg.speakerIp cid (mi.contentType.getD "") (jsStrOr mi.streamType "BUFFERED")
            (mi.metadata.getD "") (loadAutoplayFlag p.autoplay) (p.currentTime.getD 0)],
         [⟨cfg.transportId, src, NS_MEDIA,
           .mediaStatus (p.requestId.getD 0) [loadStatusRecord st mi cid p]⟩],
         [⟨500, 0, "PLAYING"⟩]⟩ ∧
      sendMediaStatus cfg (handleMedia cfg st src p).state src (some 0) (some "PLAYING") =
        ({ st with
             mediaRequestId := st.mediaRequestId + 1
             mediaStatus := some { loadStatusRecord st mi cid p with playerState := "PLAYING" } },
         ⟨cfg.transportId, src, NS_MEDIA,
          .mediaStatus 0 [{ loadStatusRecord st mi cid p with playerState := "PLAYING" }]⟩)) := by
  have hload := handleMedia_load_eq cfg st src p ht
  constructor
  · intro hdrop
    rw [hload]
    unfold handleMediaLoad
    rcases hdrop with hnone | ⟨mi, hmi, hcid⟩
    · rw [hnone]
    · rw [hmi]
      dsimp only
      rcases hcid with hnone2 | hempty
      · rw [hnone2]
      · rw [hempty]
        simp
  · intro mi cid hmi hcid hne
    rw [hload]
    unfold handleMediaLoad
    rw [hmi]
    dsimp only
    rw [hcid]
    dsimp only
    rw [if_neg hne]
    constructor
    · unfold sendMediaStatus
      simp [loadStatusRecord]
    · unfold sendMediaStatus
      simp [loadStatusRecord]

/-- Witness for C6: the success branch at a concrete `LOAD` payload. -/
theorem load_behaviour_witness :
    handleMedia sampleCfg ⟨true, 7, 0, none⟩ "sender-0"
        ⟨"LOAD", some 5, some ⟨some "http://x/a.mp3", some "audio/mpeg", none, none⟩,
          .undef, none, none⟩ =
      ⟨⟨true, 7, 1, some (loadStatusRecord ⟨true, 7, 0, none⟩
          ⟨some "http://x/a.mp3", some "audio/mpeg", none, none⟩ "http://x/a.mp3"
          ⟨"LOAD", some 5, some ⟨some "http://x/a.mp3", some "audio/mpeg", none, none⟩,
            .undef, none, none⟩)⟩,
       [.load sampleCfg.speakerIp "http://x/a.mp3" "audio/mpeg" "BUFFERED" "" true 0],
       [⟨sampleCfg.transportId, "sender-0", NS_MEDIA,
         .mediaStatus 5 [loadStatusRecord ⟨true, 7, 0, none⟩
           ⟨some "http://x/a.mp3", some "audio/mpeg", none, none⟩ "http://x/a.mp3"
           ⟨"LOAD", some 5, some ⟨some "http://x/a.mp3", some "audio/mpeg", none, none⟩,
             .undef, none, none⟩]⟩],
       [⟨500, 0, "PLAYING"⟩]⟩ := by
  have h := (load_behaviour sampleCfg ⟨true, 7, 0, none⟩ "sender-0"
    ⟨"LOAD", some 5, some ⟨some "http://x/a.mp3", some "audio/mpeg", none, none⟩,
      .undef, none, none⟩ rfl).2
    ⟨some "http://x/a.mp3", some "audio/mpeg", none, none⟩ "http://x/a.mp3"
    rfl rfl (by decide)
  exact h.1

/-- C7: Idempotent identity — two consecutive get-or-create calls for the same
speaker key return the same device id and byte-identical certificate, and the
second call changes the stored registry only at that key's `lastSeen`
timestamp. -/
theorem identity_get_or_create_idempotent (reg : Registry)
    (key fn1 fn2 fid1 fk1 fc1 fid2 fk2 fc2 : String) (n1 n2 : Nat) :
    (getOrCreateDevice (getOrCreateDevice reg key fn1 fid1 fk1 fc1 n1).2
        key fn2 fid2 fk2 fc2 n2).1 =
      (getOrCreateDevice reg key fn1 fid1 fk1 fc1 n1).1 ∧
    (getOrCreateDevice (getOrCreateDevice reg key fn1 fid1 fk1 fc1 n1).2
        key fn2 fid2 fk2 fc2 n2).2 =
      fun k => if k = key then
        ((getOrCreateDevice reg key fn1 fid1 fk1 fc1 n1).2 k).map
          (fun e => { e with lastSeen := n2 })
      else (getOrCreateDevice reg key fn1 fid1 fk1 fc1 n1).2 k := by
  unfold getOrCreateDevice
  rcases h : reg key with _ | entry <;>
    · simp only [h]
      refine ⟨rfl, funext fun k => ?_⟩
      by_cases hk : k = key <;> simp [hk]

/-- C8 (code bug): after `stop()` the 500 ms post-LOAD timer is still pending,
and when it fires its callback still mutates the record's `playerState` to
`PLAYING` and then raises a `TypeError` out of the timer callback because
`this._server` has been set to `null` — the push is not sent, but an error is
raised, contradicting the claim that the pending push is abandoned with no
error. -/
theorem stop_leaves_timer_raising :
    (fireLoadTimerAfter sampleCfg
        (CastDevice.stopDevice ⟨⟨true, 7, 1, some (sampleStatus "BUFFERING")⟩, true⟩)
        "sender-0" ⟨500, 0, "PLAYING"⟩).2 =
      .error "TypeError: Cannot read properties of null (reading send)" ∧
    (fireLoadTimerAfter sampleCfg
        (CastDevice.stopDevice ⟨⟨true, 7, 1, some (sampleStatus "BUFFERING")⟩, true⟩)
        "sender-0" ⟨500, 0, "PLAYING"⟩).1.core.mediaStatus.map MediaStatus.playerState =
      some "PLAYING" ∧
    (CastDevice.stopDevice ⟨⟨true, 7, 1, some (sampleStatus "BUFFERING")⟩, true⟩).serverUp =
      false := by
  refine ⟨?_, ?_, rfl⟩ <;>
    simp [fireLoadTimerAfter, CastDevice.stopDevice, sendMediaStatus, sampleStatus]

/-- C9: Implicit autoplay default — the load intent's autoplay flag is
computed as `payload.autoplay !== false`: it is `true` for an absent, `null`,
`true` or any other value, and `false` only for the boolean literal
`false`. -/
theorem load_autoplay_default (cfg : CastDeviceConfig) (st : CastDeviceState)
    (src : String) (p : MediaPayload) (mi : MediaRequestInfo) (cid : String)
    (ht : p.type = "LOAD") (hm : p.media = some mi) (hc : mi.contentId = some cid)
    (hne : cid ≠ "") :
    (handleMedia cfg st src p).events =
      [.load cfg.speakerIp cid (mi.contentType.getD "") (jsStrOr mi.streamType "BUFFERED")
        (mi.metadata.getD "") (loadAutoplayFlag p.autoplay) (p.currentTime.getD 0)] ∧
    (loadAutoplayFlag p.autoplay = true ↔ p.autoplay ≠ JsValue.boolFalse) ∧
    loadAutoplayFlag JsValue.undef = true ∧ loadAutoplayFlag JsValue.null = true ∧
    loadAutoplayFlag JsValue.boolTrue = true ∧ loadAutoplayFlag JsValue.other = true ∧
    loadAutoplayFlag JsValue.boolFalse = false := by
  have hload := handleMedia_load_eq cfg st src p ht
  refine ⟨?_, ?_, rfl, rfl, rfl, rfl, rfl⟩
  · rw [hload]
    unfold handleMediaLoad
    rw [hm]
    dsimp only
    rw [hc]
    dsimp only
    rw [if_neg hne]
  · unfold loadAutoplayFlag
    simp

/-- Witness for C9: a `LOAD` payload whose `autoplay` field is `null` yields
an autoplay-true load intent. -/
theorem load_autoplay_default_witness :
    (handleMedia sampleCfg ⟨true, 7, 0, none⟩ "sender-0"
        ⟨"LOAD", some 5, some ⟨some "http://x/a.mp3", none, none, none⟩,
          .null, none, none⟩).events =
      [.load sampleCfg.speakerIp "http://x/a.mp3" "" "BUFFERED" "" true 0] := by
  have h := (load_autoplay_default sampleCfg ⟨true, 7, 0, none⟩ "sender-0"
    ⟨"LOAD", some 5, some ⟨some "http://x/a.mp3", none, none, none⟩, .null, none, none⟩
    ⟨some "http://x/a.mp3", none, none, none⟩ "http://x/a.mp3"
    rfl rfl rfl (by decide)).1
  exact h

/-- C10: media-namespace handling has no app-running precondition — for every
media payload the handler produces the same events, replies, timers and the
same media-state changes whether `appRunning` is `true` or `false`, and it
leaves `appRunning` unchanged. -/
theorem media_handlers_ignore_app_state (cfg : CastDeviceConfig) (st : CastDeviceState)
    (src : String) (p : MediaPayload) (b : Bool) :
    handleMedia cfg { st with appRunning := b } src p =
      { handleMedia cfg st src p with
        state := { (handleMedia cfg st src p).state with appRunning := b } } := by
  cases st with
  | mk a sid mrid mstat =>
    unfold handleMedia handleMediaLoad sendMediaStatus
    dsimp only
    split_ifs <;> rcases mstat with _ | ms <;> rcases p with ⟨t, rid, _ | mi, ap, ct, _ | v⟩ <;>
      first
        | rfl
        | (rcases mi with ⟨_ | cid, _, _, _⟩ <;>
            first
              | rfl
              | (by_cases hc : cid = "" <;> simp [hc]))

end SonosCast
